import Mathlib

/-
  Verification of the DummyJSON API test-suite core: the product data model,
  the custom assertion helpers (lib/helpers/assertions.ts), the products API
  client wrapper (lib/api/products-api.ts) and the Ajv-based schema-validation
  wrapper (lib/helpers/ajv_schema_validator.ts), shallowly embedded in Lean.

  Numbers (TS `number`) are modelled as rationals; JS string truthiness is
  non-emptiness and number truthiness is being non-zero.  The `brand` field is
  modelled as `Option String`: although the `Product` interface declares it as
  `string`, the suite itself treats it as possibly absent at runtime
  (`if (product.brand)` in assertValidProduct, `product.brand?.toLowerCase()`
  in products-search.spec.ts), matching the remote data source.
-/

namespace DummyJSON

/-- JS truthiness of a string: the empty string is falsy. -/
def jsTruthyStr (s : String) : Bool := s ≠ ""

/-- JS truthiness of a number: zero is falsy (NaN is not modelled). -/
def jsTruthyNum (q : ℚ) : Bool := q ≠ 0

/-- JS truthiness of a possibly-undefined string: `undefined` is falsy. -/
def jsTruthyOptStr : Option String → Bool
  | none => false
  | some s => jsTruthyStr s

/-- JS truthiness of a possibly-undefined number: `undefined` is falsy. -/
def jsTruthyOptNum : Option ℚ → Bool
  | none => false
  | some q => jsTruthyNum q

/-- Boolean prefix test on character lists. -/
def charsPrefixOf : List Char → List Char → Bool
  | [], _ => true
  | _ :: _, [] => false
  | a :: as, b :: bs => a == b && charsPrefixOf as bs

/-- Boolean substring test on character lists. -/
def charsContain (haystack needle : List Char) : Bool :=
  charsPrefixOf needle haystack ||
    match haystack with
    | [] => false
    | _ :: rest => charsContain rest needle

/-- JS `haystack.includes(needle)`: substring containment. -/
def jsIncludes (haystack needle : String) : Bool :=
  charsContain haystack.data needle.data

/-- JS `s.toLowerCase()` (per-character ASCII-style lowering, as
`Char.toLower`). -/
def jsToLower (s : String) : String := String.mk (s.data.map Char.toLower)

/-- The `Product` runtime value as the assertion helpers receive it
(interface `Product` of lib/api/products-api.ts; `brand` possibly absent at
runtime, see the header comment). -/
structure Product where
  id : ℚ
  title : String
  description : String
  price : ℚ
  discountPercentage : ℚ
  rating : ℚ
  stock : ℚ
  brand : Option String
  category : String
  thumbnail : String
  images : List String
deriving DecidableEq, Repr

/-- Interface `ProductsResponse` of lib/api/products-api.ts. -/
structure ProductsResponse where
  products : List Product
  total : ℚ
  skip : ℚ
  limit : ℚ
deriving DecidableEq, Repr

/-- Embeds `ProductAssertions.assertValidProduct` (lib/helpers/assertions.ts, lines
11-28), as the predicate "runs without raising".  Each `expect(...)` line is a
conjunct, in source order; `Array.isArray(product.images)` is trivially true
in the typed embedding and is kept as a final `true` conjunct. -/
def assertValidProduct (p : Product) : Bool :=
  decide (p.id > 0) &&
  jsTruthyStr p.title &&
  jsTruthyStr p.description &&
  decide (p.price > 0) &&
  decide (p.discountPercentage ≥ 0) &&
  decide (p.rating ≥ 0) &&
  decide (p.rating ≤ 5) &&
  decide (p.stock ≥ 0) &&
  (if jsTruthyOptStr p.brand then jsTruthyOptStr p.brand else true) &&
  jsTruthyStr p.category &&
  jsTruthyStr p.thumbnail &&
  true

/-- Embeds `ProductAssertions.assertValidProductsResponse` (assertions.ts, lines
33-40): `Array.isArray(response.products)` is trivially true in the typed
embedding. -/
def assertValidProductsResponse (r : ProductsResponse) : Bool :=
  true &&
  decide (r.total > 0) &&
  decide (r.skip ≥ 0) &&
  decide (r.limit > 0) &&
  decide ((r.products.length : ℚ) ≤ r.limit)

/-- The expected partial update handed to `assertProductsMatch`
(`Partial<Product>`: all eleven `Product` fields, each possibly absent —
including `id`, `discountPercentage`, `thumbnail` and `images`, which the
helper never inspects). -/
structure ProductUpdate where
  id : Option ℚ
  title : Option String
  description : Option String
  price : Option ℚ
  discountPercentage : Option ℚ
  rating : Option ℚ
  stock : Option ℚ
  brand : Option String
  category : Option String
  thumbnail : Option String
  images : Option (List String)
deriving DecidableEq, Repr

/-- The all-absent partial update. -/
def emptyUpdate : ProductUpdate :=
  { id := none, title := none, description := none, price := none,
    discountPercentage := none, rating := none, stock := none, brand := none,
    category := none, thumbnail := none, images := none }

/-- Embeds `ProductAssertions.assertProductsMatch` (assertions.ts, lines 45-53):
each line is `if (expected.f) expect(actual.f).toBe(expected.f)`, guarded by
JS truthiness of the expected value. -/
def assertProductsMatch (actual : Product) (expected : ProductUpdate) : Bool :=
  (if jsTruthyOptStr expected.title then actual.title == expected.title.getD "" else true) &&
  (if jsTruthyOptNum expected.price then actual.price == expected.price.getD 0 else true) &&
  (if jsTruthyOptStr expected.description then actual.description == expected.description.getD "" else true) &&
  (if jsTruthyOptNum expected.rating then actual.rating == expected.rating.getD 0 else true) &&
  (if jsTruthyOptNum expected.stock then actual.stock == expected.stock.getD 0 else true) &&
  (if jsTruthyOptStr expected.brand then actual.brand == expected.brand else true) &&
  (if jsTruthyOptStr expected.category then actual.category == expected.category.getD "" else true)

/-- Embeds `ProductAssertions.assertProductsInCategory` (assertions.ts, lines 58-62). -/
def assertProductsInCategory (products : List Product) (category : String) : Bool :=
  products.all fun p => p.category == category

/-- Outcome of running a JS helper: normal return, a failed `expect`, or a
thrown `TypeError` (e.g. reading a property of `undefined`). -/
inductive JsOutcome where
  | ok : JsOutcome
  | assertionFailed : JsOutcome
  | typeError : JsOutcome
deriving DecidableEq, Repr

/-- The body of the `forEach` in `ProductAssertions.assertProductsMatchSearch`
(assertions.ts, lines 68-75) for one product.  The source evaluates
`product.brand.toLowerCase()` unconditionally, which throws a `TypeError`
when `brand` is absent. -/
def checkProductSearch (p : Product) (searchTerm : String) : JsOutcome :=
  let searchableTerm := jsToLower searchTerm
  let titleMatch := jsIncludes (jsToLower p.title) searchableTerm
  let descMatch := jsIncludes (jsToLower p.description) searchableTerm
  match p.brand with
  | none => .typeError
  | some b =>
    let brandMatch := jsIncludes (jsToLower b) searchableTerm
    if titleMatch || descMatch || brandMatch then .ok else .assertionFailed

/-- Embeds `ProductAssertions.assertProductsMatchSearch` (assertions.ts, lines
67-76): the first non-ok product outcome propagates out of the `forEach`. -/
def assertProductsMatchSearch (products : List Product) (searchTerm : String) : JsOutcome :=
  match products with
  | [] => .ok
  | p :: rest =>
    match checkProductSearch p searchTerm with
    | .ok => assertProductsMatchSearch rest searchTerm
    | outcome => outcome

/-- Embeds `ProductAssertions.assertPagination` (assertions.ts, lines 81-85). -/
def assertPagination (r : ProductsResponse) (expectedSkip expectedLimit : ℚ) : Bool :=
  (r.skip == expectedSkip) &&
  (r.limit == expectedLimit) &&
  decide ((r.products.length : ℚ) ≤ expectedLimit)

/-- A JSON value, for decoded response bodies and the schema validator. -/
inductive Json where
  | null : Json
  | boolVal : Bool → Json
  | num : ℚ → Json
  | str : String → Json
  | arr : List Json → Json
  | obj : List (String × Json) → Json

/-- Interface `Category` of lib/api/products-api.ts. -/
structure Category where
  slug : String
  name : String
  url : String
deriving DecidableEq, Repr

/-- The `string | Category` argument of `getProductsByCategory`. -/
inductive CategoryArg where
  | strArg : String → CategoryArg
  | catArg : Category → CategoryArg
deriving DecidableEq, Repr

/-- Embeds `getProductsByCategory` of the first `ProductsAPI` definition
(products-api.ts, lines 131-141): the request path is
`/products/category/${categorySlug}` with
`categorySlug = typeof category === 'string' ? category : category.slug`. -/
def getProductsByCategoryPath (category : CategoryArg) : String :=
  let categorySlug :=
    match category with
    | .strArg s => s
    | .catArg c => c.slug
  "/products/category/" ++ categorySlug

/-- JS template-literal interpolation of a `string | Category` value: a
string is inserted verbatim, while an object stringifies via its default
`toString` to `[object Object]`. -/
def jsInterpolateCategoryArg : CategoryArg → String
  | .strArg s => s
  | .catArg _ => "[object Object]"

/-- Embeds `getProductsByCategory` of the second `ProductsAPI` definition
(products-api.ts, lines 311-314): the request URL is
`${this.baseURL}/products/category/${category}`, interpolating the argument
itself rather than a resolved identifier. -/
def getProductsByCategoryUrlV2 (baseURL : String) (category : CategoryArg) : String :=
  baseURL ++ "/products/category/" ++ jsInterpolateCategoryArg category

/-- A completed HTTP response as playwright's `APIResponse` exposes it to the
wrapper: status, decoded JSON body, status text and headers. -/
structure HttpResponse where
  statusCode : Nat
  bodyJson : Json
  statusTextVal : String
  headersVal : List (String × String)

/-- Modelled from the spec: playwright's `APIResponse.ok()` is not repository
code; the spec defines the success flag as "derived: 2xx range", i.e. the
status code lies between 200 and 299. -/
def HttpResponse.okFlag (r : HttpResponse) : Bool :=
  decide (200 ≤ r.statusCode) && decide (r.statusCode ≤ 299)

/-- Interface `ApiResponse<T>` of products-api.ts (lines 42-48), with the
decoded body kept as JSON. -/
structure ApiResponse where
  data : Json
  status : Nat
  ok : Bool
  statusText : String
  headers : List (String × String)

/-- The response envelope every wrapper method of the first `ProductsAPI`
definition builds from a completed response (products-api.ts, e.g. lines
86-92): each field is copied from the playwright response, `ok` via `ok()`. -/
def buildApiResponse (resp : HttpResponse) : ApiResponse :=
  { data := resp.bodyJson
    status := resp.statusCode
    ok := resp.okFlag
    statusText := resp.statusTextVal
    headers := resp.headersVal }

/-- Embeds `getProductById` of the first `ProductsAPI` definition (products-api.ts,
lines 84-93), as a function of the completed HTTP response for
`/products/${id}`: it decodes the body and wraps the response metadata,
without inspecting the status. -/
def getProductById (resp : HttpResponse) : ApiResponse :=
  buildApiResponse resp

/-- One Ajv validation error: instance path and message. -/
structure AjvError where
  instancePath : String
  message : String
deriving DecidableEq, Repr

/-- The primitive types a schema property can require. -/
inductive PropType where
  | pString : PropType
  | pNumber : PropType
  | pInteger : PropType
  | pBoolean : PropType
  | pStringArray : PropType
deriving DecidableEq, Repr

/-- Ajv message text for a type violation. -/
def typeName : PropType → String
  | .pString => "string"
  | .pNumber => "number"
  | .pInteger => "integer"
  | .pBoolean => "boolean"
  | .pStringArray => "array"

/-- Does a JSON value have the required primitive type (strict mode, no type
coercion)? -/
def jsonIsType : Json → PropType → Bool
  | .str _, .pString => true
  | .num _, .pNumber => true
  | .num q, .pInteger => q.den == 1
  | .boolVal _, .pBoolean => true
  | .arr xs, .pStringArray => xs.all fun x => match x with | .str _ => true | _ => false
  | _, _ => false

/-- Modelled from the spec: the schema documents (fixtures/schemas, not under
src/) are declarative object schemas — typed properties, a required list and
an unknown-property switch ("strict mode..., unknown-property behavior
controlled by the schema"). -/
structure Schema where
  properties : List (String × PropType)
  required : List String
  additionalProperties : Bool
deriving DecidableEq, Repr

/-- Modelled from the spec: the compiled Ajv validator (external library) run
with `allErrors: true` — it reports every violation, each with its instance
path and message: missing required properties, property type violations, and
unknown properties when the schema forbids them. -/
def ajvValidateErrors (schema : Schema) (body : Json) : List AjvError :=
  match body with
  | .obj fields =>
    (schema.required.filterMap fun k =>
      if (fields.lookup k).isSome then none
      else some ⟨"", "must have required property " ++ k⟩) ++
    (schema.properties.filterMap fun kt =>
      match fields.lookup kt.1 with
      | some v =>
        if jsonIsType v kt.2 then none
        else some ⟨"/" ++ kt.1, "must be " ++ typeName kt.2⟩
      | none => none) ++
    (if schema.additionalProperties then []
     else fields.filterMap fun kv =>
       if (schema.properties.lookup kv.1).isSome then none
       else some ⟨"", "must NOT have additional properties"⟩)
  | _ => [⟨"", "must be object"⟩]

/-- The boolean `validate(response)` returns (Ajv: true exactly when there is
no violation). -/
def ajvValidateResult (schema : Schema) (body : Json) : Bool :=
  (ajvValidateErrors schema body).isEmpty

/-- Field `validate.errors` after a call (Ajv: `null` after success, the non-empty
error array after failure). -/
def ajvValidateErrorsField (schema : Schema) (body : Json) : Option (List AjvError) :=
  let es := ajvValidateErrors schema body
  if es.isEmpty then none else some es

/-- Decimal rendering of a rational, for the JSON dump (integers render as
integers). -/
def ratToString (q : ℚ) : String :=
  if q.den == 1 then toString q.num else toString q.num ++ "/" ++ toString q.den

mutual

/-- Modelled from the spec: `JSON.stringify(response, null, 2)` (external) —
a deterministic "pretty-printed dump of the actual body". -/
def jsonStringify : Json → String
  | .null => "null"
  | .boolVal true => "true"
  | .boolVal false => "false"
  | .num q => ratToString q
  | .str s => "\"" ++ s ++ "\""
  | .arr xs => "[" ++ jsonStringifyArr xs ++ "]"
  | .obj fs => "\x7b" ++ jsonStringifyObj fs ++ "\x7d"

/-- Comma-joined rendering of array elements. -/
def jsonStringifyArr : List Json → String
  | [] => ""
  | [x] => jsonStringify x
  | x :: xs => jsonStringify x ++ "," ++ jsonStringifyArr xs

/-- Comma-joined rendering of object fields. -/
def jsonStringifyObj : List (String × Json) → String
  | [] => ""
  | [(k, v)] => "\"" ++ k ++ "\":" ++ jsonStringify v
  | (k, v) :: fs => "\"" ++ k ++ "\":" ++ jsonStringify v ++ "," ++ jsonStringifyObj fs

end

/-- One line of the aggregated failure message:
`Path: ${error.instancePath || 'root'} - ${error.message}` (the empty
instance path is falsy, hence rendered as `root`). -/
def formatAjvError (e : AjvError) : String :=
  "Path: " ++ (if jsTruthyStr e.instancePath then e.instancePath else "root") ++ " - " ++ e.message

/-- The full aggregated error message thrown by `validateResponseSchema`. -/
def schemaFailureMessage (errs : List AjvError) (response : Json) : String :=
  "Schema validation failed:\n" ++ String.intercalate "\n" (errs.map formatAjvError) ++
    "\n\nActual Response:\n" ++ jsonStringify response

/-- Embeds `validateResponseSchema` (lib/helpers/ajv_schema_validator.ts, lines
224-240): compiles the schema, runs it, and throws the aggregated error when
`!isValid && validate.errors`; otherwise returns `isValid`. -/
def validateResponseSchema (response : Json) (schema : Schema) : Except String Bool :=
  let isValid := ajvValidateResult schema response
  let errorsField := ajvValidateErrorsField schema response
  if !isValid && errorsField.isSome then
    .error (schemaFailureMessage (errorsField.getD []) response)
  else
    .ok isValid

/-! Concrete fixtures used by witnesses and counterexamples. -/

/-- A fully valid concrete product (fixture-style, cf. `sampleProduct` of
lib/fixtures/test-data.ts). -/
def sampleValid : Product :=
  { id := 1
    title := "Test Product"
    description := "This is a test product for API testing"
    price := 100
    discountPercentage := 10
    rating := 4
    stock := 100
    brand := some "Test Brand"
    category := "smartphones"
    thumbnail := "https://dummyjson.com/image/1.png"
    images := ["https://dummyjson.com/image/1.png"] }

/-- A product valid in every respect except a discount percentage above 100. -/
def overDiscountProduct : Product :=
  { sampleValid with discountPercentage := 150 }

/-- A runtime product without a brand whose title contains the search term. -/
def moisturizerNoBrand : Product :=
  { id := 87
    title := "Oil Free Moisturizer"
    description := "Oil free moisturizer with vitamin C"
    price := 40
    discountPercentage := 5
    rating := 4
    stock := 30
    brand := none
    category := "skincare"
    thumbnail := "https://dummyjson.com/image/87.png"
    images := [] }

/-- A concrete structured category. -/
def smartphonesCategory : Category :=
  { slug := "smartphones"
    name := "Smartphones"
    url := "https://dummyjson.com/products/category/smartphones" }

/-- A concrete valid listing envelope. -/
def sampleResponse : ProductsResponse :=
  { products := [sampleValid], total := 100, skip := 0, limit := 30 }

/-- A concrete completed 404 response for a non-existent product id. -/
def notFoundResponse : HttpResponse :=
  { statusCode := 404
    bodyJson := .obj [("message", .str "Product with id 999999 not found")]
    statusTextVal := "Not Found"
    headersVal := [("content-type", "application/json")] }

/-- A concrete flat schema in the shape of the product JSON schema fixture. -/
def productSchemaModel : Schema :=
  { properties := [("id", .pInteger), ("title", .pString), ("price", .pNumber)]
    required := ["id", "title", "price"]
    additionalProperties := false }

/-- A body that is not even an object, hence violates `productSchemaModel`. -/
def nonObjectBody : Json := .num 5

/-! Specification-side predicates. -/

/-- Modelled from the spec: a "URL string", as in the pattern the suite itself
uses for URLs (`/^https?:\/\/.+/` in products.spec.ts). -/
def isURLString (s : String) : Bool :=
  (s.startsWith "http://" && decide (s.length > 7)) ||
  (s.startsWith "https://" && decide (s.length > 8))

/-- The acceptance set claim C2 ascribes to `assertValidProduct`: all of the
section-3 entity constraints, with the brand check conditional on presence
(and hence no constraint at all on an absent brand). -/
def claimValidProduct (p : Product) : Prop :=
  0 < p.id ∧ p.title ≠ "" ∧ p.description ≠ "" ∧ 0 < p.price ∧
  0 ≤ p.discountPercentage ∧ p.discountPercentage ≤ 100 ∧
  0 ≤ p.rating ∧ p.rating ≤ 5 ∧
  0 ≤ p.stock ∧ p.stock.den = 1 ∧
  p.category ≠ "" ∧ isURLString p.thumbnail = true ∧
  (∀ img ∈ p.images, isURLString img = true)

/-- The per-field semantics of the partial-update match the code performs:
for each of the seven fields the helper inspects (title, price, description,
rating, stock, brand, category), a present JS-truthy expected value forces
the actual field to equal it. -/
def productUpdateApplied (actual : Product) (expected : ProductUpdate) : Prop :=
  (∀ s, expected.title = some s → s ≠ "" → actual.title = s) ∧
  (∀ q, expected.price = some q → q ≠ 0 → actual.price = q) ∧
  (∀ s, expected.description = some s → s ≠ "" → actual.description = s) ∧
  (∀ q, expected.rating = some q → q ≠ 0 → actual.rating = q) ∧
  (∀ q, expected.stock = some q → q ≠ 0 → actual.stock = q) ∧
  (∀ s, expected.brand = some s → s ≠ "" → actual.brand = some s) ∧
  (∀ s, expected.category = some s → s ≠ "" → actual.category = s)

/-- The field-match semantics claim C4 ascribes to `assertProductsMatch`:
every field of the expected `Partial<Product>` that is present (with a
JS-truthy value, per the claim's own falsy-value carve-out; an array is
always truthy) forces the actual field to equal it — including `id`,
`discountPercentage`, `thumbnail` and `images`. -/
def claimUpdateApplied (actual : Product) (expected : ProductUpdate) : Prop :=
  (∀ q, expected.id = some q → q ≠ 0 → actual.id = q) ∧
  (∀ s, expected.title = some s → s ≠ "" → actual.title = s) ∧
  (∀ s, expected.description = some s → s ≠ "" → actual.description = s) ∧
  (∀ q, expected.price = some q → q ≠ 0 → actual.price = q) ∧
  (∀ q, expected.discountPercentage = some q → q ≠ 0 → actual.discountPercentage = q) ∧
  (∀ q, expected.rating = some q → q ≠ 0 → actual.rating = q) ∧
  (∀ q, expected.stock = some q → q ≠ 0 → actual.stock = q) ∧
  (∀ s, expected.brand = some s → s ≠ "" → actual.brand = some s) ∧
  (∀ s, expected.category = some s → s ≠ "" → actual.category = s) ∧
  (∀ s, expected.thumbnail = some s → s ≠ "" → actual.thumbnail = s) ∧
  (∀ l, expected.images = some l → actual.images = l)

/-! Helper lemmas. -/

/-- The guarded brand self-check `if (b) expect(b).toBeTruthy()` always passes. -/
lemma guardedSelfCheck (b : Bool) : (if b then b else true) = true := by
  cases b <;> rfl

/-- Field-match semantics for a string-valued field. -/
lemma checkStrIff (a : String) (e : Option String) :
    ((if jsTruthyOptStr e then a == e.getD "" else true) = true) ↔
      (∀ s, e = some s → s ≠ "" → a = s) := by
  cases e with
  | none => simp [jsTruthyOptStr]
  | some s =>
    by_cases h : s = "" <;>
      simp [jsTruthyOptStr, jsTruthyStr, h]

/-- Field-match semantics for a number-valued field. -/
lemma checkNumIff (a : ℚ) (e : Option ℚ) :
    ((if jsTruthyOptNum e then a == e.getD 0 else true) = true) ↔
      (∀ q, e = some q → q ≠ 0 → a = q) := by
  cases e with
  | none => simp [jsTruthyOptNum]
  | some q =>
    by_cases h : q = 0 <;>
      simp [jsTruthyOptNum, jsTruthyNum, h]

/-- Field-match semantics for the optional brand field. -/
lemma checkBrandIff (a : Option String) (e : Option String) :
    ((if jsTruthyOptStr e then a == e else true) = true) ↔
      (∀ s, e = some s → s ≠ "" → a = some s) := by
  cases e with
  | none => simp [jsTruthyOptStr]
  | some s =>
    by_cases h : s = "" <;>
      simp [jsTruthyOptStr, jsTruthyStr, h]

/-! Claim theorems. -/

/-- C1: `assertProductsMatchSearch` on a brandless product whose title does
contain the search term does not succeed: evaluating
`product.brand.toLowerCase()` throws a `TypeError`, contradicting the spec
sentence that an absent brand merely contributes no match. -/
theorem assertProductsMatchSearch_crashes_on_absent_brand :
    jsIncludes (jsToLower moisturizerNoBrand.title) (jsToLower "Moisturizer") = true ∧
    assertProductsMatchSearch [moisturizerNoBrand] "Moisturizer" = .typeError := by
  constructor
  · decide
  · decide

/-- C2 counterexample: `assertValidProduct` does not accept exactly the
products claim C2 describes — it accepts `overDiscountProduct`, whose
discount percentage is 150, while the claimed acceptance set requires the
discount percentage to be at most 100. -/
theorem assertValidProduct_not_claim_iff :
    ¬ (∀ p : Product, assertValidProduct p = true ↔ claimValidProduct p) := by
  intro h
  have haccept : assertValidProduct overDiscountProduct = true := by decide
  have hclaim := (h overDiscountProduct).mp haccept
  have hle : overDiscountProduct.discountPercentage ≤ 100 :=
    hclaim.2.2.2.2.2.1
  have : ¬ (overDiscountProduct.discountPercentage ≤ 100) := by decide
  exact this hle

/-- C2 (amended): `assertValidProduct` accepts exactly the products with
positive id, non-empty title, description, category and thumbnail, positive
price, non-negative discount percentage (no upper bound), rating between 0
and 5, and non-negative stock (integrality not required); the images field is
only required to be an array, and the brand check is vacuous. -/
theorem assertValidProduct_iff :
    ∀ p : Product, assertValidProduct p = true ↔
      (0 < p.id ∧ p.title ≠ "" ∧ p.description ≠ "" ∧ 0 < p.price ∧
       0 ≤ p.discountPercentage ∧ 0 ≤ p.rating ∧ p.rating ≤ 5 ∧
       0 ≤ p.stock ∧ p.category ≠ "" ∧ p.thumbnail ≠ "") := by
  intro p
  simp only [assertValidProduct, guardedSelfCheck, Bool.and_true, Bool.and_eq_true,
    decide_eq_true_eq, jsTruthyStr]
  tauto

/-- C2 witness: the amended characterization applied to a concrete product. -/
theorem assertValidProduct_iff_witness :
    assertValidProduct sampleValid = true :=
  (assertValidProduct_iff sampleValid).mpr (by decide)

/-- C3: in the second `ProductsAPI` definition (products-api.ts, lines
311-314) a structured category is interpolated directly into the URL, so the
issued request addresses `/products/category/[object Object]` instead of the
canonical identifier; the first definition (lines 131-141) does resolve the
slug. -/
theorem getProductsByCategory_object_not_resolved :
    getProductsByCategoryPath (.catArg smartphonesCategory) =
      "/products/category/smartphones" ∧
    getProductsByCategoryUrlV2 "https://dummyjson.com" (.catArg smartphonesCategory) =
      "https://dummyjson.com/products/category/[object Object]" := by
  constructor
  · decide
  · decide

/-- C4 counterexample: `assertProductsMatch` does not check every field
present in the expected partial — an expected partial whose only present
field is `discountPercentage := 20` passes against an actual product whose
discount percentage is 10, refuting the claimed per-present-field equality
check. -/
theorem assertProductsMatch_not_claim_iff :
    ¬ (∀ (a : Product) (e : ProductUpdate),
        assertProductsMatch a e = true ↔ claimUpdateApplied a e) := by
  intro h
  have hpass : assertProductsMatch sampleValid
      { emptyUpdate with discountPercentage := some 20 } = true := by decide
  have hclaim :=
    (h sampleValid { emptyUpdate with discountPercentage := some 20 }).mp hpass
  exact absurd (hclaim.2.2.2.2.1 20 rfl (by norm_num)) (by decide)

/-- C4 (amended): `assertProductsMatch` checks only the seven fields title,
price, description, rating, stock, brand and category: it succeeds exactly
when every one of those that is present with a JS-truthy expected value is
matched by the actual product; a present-but-falsy expected value (price 0)
is indistinguishable from an omitted field, and a present `id`,
`discountPercentage`, `thumbnail` or `images` is never checked at all. -/
theorem assertProductsMatch_spec :
    (∀ (a : Product) (e : ProductUpdate),
      assertProductsMatch a e = true ↔ productUpdateApplied a e) ∧
    (∀ (a : Product) (e : ProductUpdate),
      assertProductsMatch a { e with price := some 0 } =
        assertProductsMatch a { e with price := none }) ∧
    (∀ (a : Product) (e : ProductUpdate) (i dp : Option ℚ)
        (tn : Option String) (im : Option (List String)),
      assertProductsMatch a
          { e with id := i, discountPercentage := dp, thumbnail := tn, images := im } =
        assertProductsMatch a e) := by
  refine ⟨?_, ?_, ?_⟩
  · intro a e
    simp only [assertProductsMatch, Bool.and_eq_true, checkStrIff, checkNumIff,
      checkBrandIff, productUpdateApplied]
    tauto
  · intro a e
    simp [assertProductsMatch, jsTruthyOptNum, jsTruthyNum]
  · intro a e i dp tn im
    rfl

/-- C4 witness: the field-match characterization applied to a concrete
product and partial update. -/
theorem assertProductsMatch_spec_witness :
    assertProductsMatch sampleValid
      { emptyUpdate with title := some "Test Product", price := some 100 } = true :=
  (assertProductsMatch_spec.1 sampleValid
      { emptyUpdate with title := some "Test Product", price := some 100 }).mpr
    (by refine ⟨?_, ?_, ?_, ?_, ?_, ?_, ?_⟩ <;> intro x hx <;> simp_all [emptyUpdate, sampleValid])

/-- C5: `assertValidProductsResponse` accepts exactly the envelopes with
positive total, non-negative skip, positive limit and at most `limit`
products (the products field being an array is structural in the embedding);
in particular every envelope with total 0 is rejected. -/
theorem assertValidProductsResponse_spec :
    (∀ r : ProductsResponse,
      assertValidProductsResponse r = true ↔
        (0 < r.total ∧ 0 ≤ r.skip ∧ 0 < r.limit ∧
         (r.products.length : ℚ) ≤ r.limit)) ∧
    (∀ r : ProductsResponse,
      assertValidProductsResponse { r with total := 0 } = false) := by
  constructor
  · intro r
    simp [assertValidProductsResponse, Bool.and_eq_true, decide_eq_true_eq]
    tauto
  · intro r
    simp [assertValidProductsResponse]

/-- C5 witness: the characterization applied to a concrete valid envelope. -/
theorem assertValidProductsResponse_spec_witness :
    assertValidProductsResponse sampleResponse = true :=
  (assertValidProductsResponse_spec.1 sampleResponse).mpr (by decide)

/-- C6: for every valid requested skip/limit pair, `assertPagination`
succeeds exactly when the envelope echoes the requested skip and limit and
returns at most `limit` products. -/
theorem assertPagination_spec :
    ∀ (r : ProductsResponse) (expectedSkip expectedLimit : ℚ),
      0 ≤ expectedSkip → 0 < expectedLimit →
      (assertPagination r expectedSkip expectedLimit = true ↔
        (r.skip = expectedSkip ∧ r.limit = expectedLimit ∧
         (r.products.length : ℚ) ≤ expectedLimit)) := by
  intro r expectedSkip expectedLimit _ _
  simp [assertPagination, Bool.and_eq_true, decide_eq_true_eq]
  tauto

/-- C6 witness: the pagination characterization at a concrete envelope and a
concrete valid pair, hypotheses discharged. -/
theorem assertPagination_spec_witness :
    (0 : ℚ) ≤ 0 ∧ (0 : ℚ) < 30 ∧
    (assertPagination sampleResponse 0 30 = true ↔
      (sampleResponse.skip = 0 ∧ sampleResponse.limit = 30 ∧
       (sampleResponse.products.length : ℚ) ≤ 30)) :=
  ⟨by norm_num, by norm_num,
    assertPagination_spec sampleResponse 0 30 (by norm_num) (by norm_num)⟩

/-- C7: for every body and schema, the wrapper returns `true` when the body
conforms (no Ajv violation), raises the single aggregated error message —
joined per-violation path/message lines plus the dump of the body — when it
does not conform, and never returns `false`. -/
theorem validateResponseSchema_spec :
    ∀ (body : Json) (schema : Schema),
      (ajvValidateResult schema body = true →
        validateResponseSchema body schema = .ok true) ∧
      (ajvValidateResult schema body = false →
        validateResponseSchema body schema =
          .error (schemaFailureMessage (ajvValidateErrors schema body) body)) ∧
      (∀ b : Bool, validateResponseSchema body schema = .ok b → b = true) := by
  intro body schema
  by_cases h : (ajvValidateErrors schema body).isEmpty
  · constructor
    · intro _
      simp [validateResponseSchema, ajvValidateResult, ajvValidateErrorsField, h]
    · constructor
      · intro hfalse
        rw [ajvValidateResult, h] at hfalse
        exact absurd hfalse (by simp)
      · intro b hb
        rw [validateResponseSchema] at hb
        simp [ajvValidateResult, ajvValidateErrorsField, h] at hb
        exact hb
  · rw [Bool.not_eq_true] at h
    constructor
    · intro htrue
      rw [ajvValidateResult, h] at htrue
      exact absurd htrue (by simp)
    · constructor
      · intro _
        simp [validateResponseSchema, ajvValidateResult, ajvValidateErrorsField, h]
      · intro b hb
        rw [validateResponseSchema] at hb
        simp [ajvValidateResult, ajvValidateErrorsField, h] at hb

/-- C7 witness: a concrete non-conforming body raises the concrete aggregated
message, via the failure branch of the characterization. -/
theorem validateResponseSchema_spec_witness :
    validateResponseSchema nonObjectBody productSchemaModel =
      .error ("Schema validation failed:\nPath: root - must be object" ++
        "\n\nActual Response:\n5") := by
  have h := (validateResponseSchema_spec nonObjectBody productSchemaModel).2.1 (by rfl)
  rw [h]
  rfl

/-- C8: for every completed HTTP response, `getProductById` returns an
envelope whose status, status text, headers and decoded body are carried over
unchanged and whose ok flag is true exactly for a 2xx status; being a total
function of the response, it neither throws nor branches on the status. -/
theorem getProductById_envelope :
    ∀ resp : HttpResponse,
      (getProductById resp).status = resp.statusCode ∧
      (getProductById resp).statusText = resp.statusTextVal ∧
      (getProductById resp).headers = resp.headersVal ∧
      (getProductById resp).data = resp.bodyJson ∧
      ((getProductById resp).ok = true ↔
        (200 ≤ resp.statusCode ∧ resp.statusCode ≤ 299)) := by
  intro resp
  refine ⟨rfl, rfl, rfl, rfl, ?_⟩
  simp [getProductById, buildApiResponse, HttpResponse.okFlag,
    Bool.and_eq_true, decide_eq_true_eq]

/-- C8 witness: the envelope characterization at a concrete completed 404
response: the status surfaces in the envelope with `ok = false`. -/
theorem getProductById_envelope_witness :
    (getProductById notFoundResponse).status = notFoundResponse.statusCode ∧
    (getProductById notFoundResponse).statusText = notFoundResponse.statusTextVal ∧
    (getProductById notFoundResponse).headers = notFoundResponse.headersVal ∧
    (getProductById notFoundResponse).data = notFoundResponse.bodyJson ∧
    ((getProductById notFoundResponse).ok = true ↔
      (200 ≤ notFoundResponse.statusCode ∧ notFoundResponse.statusCode ≤ 299)) :=
  getProductById_envelope notFoundResponse

/-- Splits a character list at a separator (for reading a URL path as its
`/`-separated segments). -/
def splitOnChar (sep : Char) : List Char → List String
  | [] => [""]
  | c :: rest =>
    match splitOnChar sep rest, c == sep with
    | r, true => "" :: r
    | [], false => [String.mk [c]]
    | s :: ss, false => String.mk (c :: s.data) :: ss

/-- C9: a string category argument is concatenated verbatim into the request
path with no percent-encoding, so a string containing `/` yields a path with
additional segments, addressing a different endpoint. -/
theorem getProductsByCategory_string_verbatim :
    (∀ s : String,
      getProductsByCategoryPath (.strArg s) = "/products/category/" ++ s) ∧
    splitOnChar '/' (getProductsByCategoryPath (.strArg "beauty/summer")).data =
      ["", "products", "category", "beauty", "summer"] ∧
    splitOnChar '/' (getProductsByCategoryPath (.strArg "beauty")).data =
      ["", "products", "category", "beauty"] := by
  refine ⟨fun s => rfl, ?_, ?_⟩
  · decide
  · decide

/-- C9 witness: the verbatim-concatenation equation at a concrete category
string. -/
theorem getProductsByCategory_string_verbatim_witness :
    getProductsByCategoryPath (.strArg "smartphones") =
      "/products/category/" ++ "smartphones" :=
  getProductsByCategory_string_verbatim.1 "smartphones"

/-- C10: `validateResponseSchema` is deterministic — equal bodies and equal
schemas yield identical outcomes (same returned boolean, or the same raised
message with the same violation list and body dump). -/
theorem validateResponseSchema_deterministic :
    ∀ (body₁ body₂ : Json) (schema₁ schema₂ : Schema),
      body₁ = body₂ → schema₁ = schema₂ →
      validateResponseSchema body₁ schema₁ = validateResponseSchema body₂ schema₂ := by
  intro body₁ body₂ schema₁ schema₂ hb hs
  rw [hb, hs]

/-- C10 witness: determinism applied at a concrete body/schema pair. -/
theorem validateResponseSchema_deterministic_witness :
    validateResponseSchema (Json.str "laptops") productSchemaModel =
      validateResponseSchema (Json.str "laptops") productSchemaModel :=
  validateResponseSchema_deterministic _ _ _ _ rfl rfl

end DummyJSON
